import Mathlib

/-!
Verification of the AI-powered children's book generator (JavaScript CLI).

Each section embeds one part of the source shallowly in Lean and proves the
spec's claims about it:

* `src/promptBuilder.js` — the recursive `cleanObject` pruning of story
  variables used by `personalizeChapterContent`;
* `src/imageGenerator.js` — the `checkMysticTaskStatus` polling loop;
* the image style module — `getIllustrationPrompt` with its style/preset
  fallbacks;
* `src/cli/utils/bookState.js` — chapter initialisation from the static
  lesson configuration;
* `src/cli/commands/manageBook.js` and `configureBook.js` — the chapter
  status state machine, `getNextChapter`, the acceptance append to
  `content.md`, and the failure handling of a generation attempt.

JavaScript values are modelled by the mutual inductive `JVal`/`JArr`/`JObj`
(JSON-like trees plus an explicit `undef` for `undefined`, which
`cleanObject` introduces); machine-level concerns (floats, I/O) are kept out
of the properties proved.
-/

/-! ### JSON-like story-variable trees (src/promptBuilder.js)

`JVal` models a JavaScript value as it occurs in `storyVariables`:
`null`, `undefined`, strings, numbers, arrays and plain objects.
`JArr` and `JObj` are the spine of arrays and of object entry lists
(`Object.entries` order). -/

mutual

inductive JVal where
  | null
  | undef
  | str (s : String)
  | num (n : Int)
  | arr (xs : JArr)
  | obj (fs : JObj)
  deriving DecidableEq

inductive JArr where
  | nil
  | cons (hd : JVal) (tl : JArr)
  deriving DecidableEq

inductive JObj where
  | nil
  | cons (key : String) (val : JVal) (tl : JObj)
  deriving DecidableEq

end

/-- The JavaScript loose test `item != null`: true exactly on `null` and
`undefined`. -/
def JVal.isNullish : JVal → Bool
  | .null => true
  | .undef => true
  | _ => false

/-- The keep condition of `cleanObject`'s object branch
(src/promptBuilder.js lines 344-351):
`cleanValue != null && cleanValue !== "" &&
 !(Array.isArray(cleanValue) && !cleanValue.length) &&
 !(typeof cleanValue === "object" && !Object.keys(cleanValue).length)`. -/
def keepValue : JVal → Bool
  | .null => false
  | .undef => false
  | .str s => s ≠ ""
  | .num _ => true
  | .arr .nil => false
  | .arr (.cons _ _) => true
  | .obj .nil => false
  | .obj (.cons _ _ _) => true

mutual

/-- `cleanObject` of src/promptBuilder.js lines 335-357.  Primitives (and
`null`/`undefined`) are returned unchanged (`if (!obj || typeof obj !==
"object") return obj;`).  An array becomes
`obj.filter((item) => item != null).map(cleanObject)`, and `undefined` when
that is empty.  An object keeps each entry whose cleaned value passes
`keepValue`, and becomes `undefined` when no entry survives. -/
def cleanObject : JVal → JVal
  | .null => .null
  | .undef => .undef
  | .str s => .str s
  | .num n => .num n
  | .arr xs =>
    match cleanArr xs with
    | .nil => .undef
    | .cons h t => .arr (.cons h t)
  | .obj fs =>
    match cleanFields fs with
    | .nil => .undef
    | .cons k v t => .obj (.cons k v t)

/-- The array branch of `cleanObject`:
`obj.filter((item) => item != null).map(cleanObject)` with the filter and
map fused into one pass over the spine. -/
def cleanArr : JArr → JArr
  | .nil => .nil
  | .cons h t =>
    if h.isNullish then cleanArr t else .cons (cleanObject h) (cleanArr t)

/-- The object branch of `cleanObject`: the `Object.entries(obj).reduce`
that keeps `key` with the cleaned value exactly when `keepValue` holds of
it. -/
def cleanFields : JObj → JObj
  | .nil => .nil
  | .cons k v t =>
    let cv := cleanObject v
    if keepValue cv then .cons k cv (cleanFields t) else cleanFields t

end

/-! ### C6: the pruned tree has no key with an empty cleaned value -/

/-- A value that is none of `""`, `[]`, `{}` — what the spec requires of
every value stored under a key of the pruned output. -/
def nonEmptyValue : JVal → Bool
  | .str "" => false
  | .arr .nil => false
  | .obj .nil => false
  | _ => true

mutual

/-- Every object key in the tree, at any depth (also inside arrays), holds
a value that is not `""`, `[]` or `{}`. -/
def goodKeysV : JVal → Bool
  | .arr xs => goodKeysA xs
  | .obj fs => goodKeysO fs
  | _ => true

def goodKeysA : JArr → Bool
  | .nil => true
  | .cons h t => goodKeysV h && goodKeysA t

def goodKeysO : JObj → Bool
  | .nil => true
  | .cons _ v t => nonEmptyValue v && goodKeysV v && goodKeysO t

end

theorem keepValue_nonEmptyValue (v : JVal) (h : keepValue v = true) :
    nonEmptyValue v = true := by
  cases v with
  | str s =>
    simp only [keepValue, decide_eq_true_eq] at h
    cases s with
    | mk l => cases l with
      | nil => exact absurd rfl h
      | cons c cs => rfl
  | arr xs => cases xs <;> simp_all [keepValue, nonEmptyValue]
  | obj fs => cases fs <;> simp_all [keepValue, nonEmptyValue]
  | _ => rfl

mutual

theorem goodKeys_cleanObject (v : JVal) : goodKeysV (cleanObject v) = true := by
  cases v with
  | null => rfl
  | undef => rfl
  | str s => rfl
  | num n => rfl
  | arr xs =>
    have h := goodKeys_cleanArr xs
    unfold cleanObject
    cases hxs : cleanArr xs with
    | nil => rfl
    | cons a t => rw [hxs] at h; exact h
  | obj fs =>
    have h := goodKeys_cleanFields fs
    unfold cleanObject
    cases hfs : cleanFields fs with
    | nil => rfl
    | cons k a t => rw [hfs] at h; exact h

theorem goodKeys_cleanArr (xs : JArr) : goodKeysA (cleanArr xs) = true := by
  cases xs with
  | nil => rfl
  | cons h t =>
    unfold cleanArr
    by_cases hn : h.isNullish = true
    · simp only [hn, if_true]
      exact goodKeys_cleanArr t
    · simp only [hn, if_false, Bool.false_eq_true, goodKeysA]
      rw [goodKeys_cleanObject h, goodKeys_cleanArr t]
      rfl

theorem goodKeys_cleanFields (fs : JObj) : goodKeysO (cleanFields fs) = true := by
  cases fs with
  | nil => rfl
  | cons k v t =>
    unfold cleanFields
    by_cases hk : keepValue (cleanObject v) = true
    · simp only [hk, if_true, goodKeysO]
      rw [keepValue_nonEmptyValue _ hk, goodKeys_cleanObject v,
        goodKeys_cleanFields t]
      rfl
    · simp only [hk, if_false, Bool.false_eq_true]
      exact goodKeys_cleanFields t

end

/-- C6: For every story-variable tree, the pruned output produced before
serialization into the personalization prompt contains no object key, at
any nesting depth, whose cleaned value is the empty string `""`, the empty
array `[]`, or the empty object `{}`. -/
theorem cleanObject_no_empty_key_values (v : JVal) :
    goodKeysV (cleanObject v) = true :=
  goodKeys_cleanObject v

/-! ### C2: idempotence of the pruning

The claim `prune(prune(x)) == prune(x)` fails: inside an array, an element
that cleans to `undefined` (an empty object, say) is kept as `undefined` by
the first pass — `filter` runs before `map` — and only the second pass
filters it out.  `cleanObject([{}]) = [undefined]` while
`cleanObject([undefined]) = undefined`.  Idempotence does hold whenever no
array of the tree contains a non-null element whose cleaned value is
`undefined`; `arraysSafeV` states that condition. -/

def JVal.isUndef : JVal → Bool
  | .undef => true
  | _ => false

mutual

/-- No array anywhere in the tree has a non-nullish element whose cleaned
value is `undefined`. -/
def arraysSafeV : JVal → Bool
  | .arr xs => arraysSafeA xs
  | .obj fs => arraysSafeO fs
  | _ => true

def arraysSafeA : JArr → Bool
  | .nil => true
  | .cons h t =>
    (h.isNullish || !(cleanObject h).isUndef) && arraysSafeV h && arraysSafeA t

def arraysSafeO : JObj → Bool
  | .nil => true
  | .cons _ v t => arraysSafeV v && arraysSafeO t

end

/-- Only `null` cleans to `null`: `cleanObject` maps every other
constructor to a non-`null` value. -/
theorem cleanObject_eq_null (v : JVal) (h : cleanObject v = .null) :
    v = .null := by
  cases v with
  | null => rfl
  | undef => exact absurd h (by simp [cleanObject])
  | str s => exact absurd h (by simp [cleanObject])
  | num n => exact absurd h (by simp [cleanObject])
  | arr xs =>
    unfold cleanObject at h
    cases hxs : cleanArr xs <;> rw [hxs] at h <;> exact nomatch h
  | obj fs =>
    unfold cleanObject at h
    cases hfs : cleanFields fs <;> rw [hfs] at h <;> exact nomatch h

theorem cleanObject_arr_eq (xs : JArr) :
    cleanObject (.arr xs)
      = match cleanArr xs with
        | .nil => .undef
        | .cons h t => .arr (.cons h t) := rfl

theorem cleanObject_obj_eq (fs : JObj) :
    cleanObject (.obj fs)
      = match cleanFields fs with
        | .nil => .undef
        | .cons k v t => .obj (.cons k v t) := rfl

theorem cleanArr_cons_eq (hd : JVal) (t : JArr) :
    cleanArr (.cons hd t)
      = if hd.isNullish then cleanArr t
        else .cons (cleanObject hd) (cleanArr t) := rfl

theorem cleanFields_cons_eq (k : String) (v : JVal) (t : JObj) :
    cleanFields (.cons k v t)
      = if keepValue (cleanObject v) then .cons k (cleanObject v) (cleanFields t)
        else cleanFields t := rfl

mutual

theorem cleanObject_idem (v : JVal) (h : arraysSafeV v = true) :
    cleanObject (cleanObject v) = cleanObject v := by
  cases v with
  | null => rfl
  | undef => rfl
  | str s => rfl
  | num n => rfl
  | arr xs =>
    have ha : arraysSafeA xs = true := h
    have hrec := cleanArr_idem xs ha
    rw [cleanObject_arr_eq xs]
    cases hxs : cleanArr xs with
    | nil => rfl
    | cons a t =>
      rw [hxs] at hrec
      show cleanObject (.arr (.cons a t)) = .arr (.cons a t)
      rw [cleanObject_arr_eq, hrec]
  | obj fs =>
    have ha : arraysSafeO fs = true := h
    have hrec := cleanFields_idem fs ha
    rw [cleanObject_obj_eq fs]
    cases hfs : cleanFields fs with
    | nil => rfl
    | cons k a t =>
      rw [hfs] at hrec
      show cleanObject (.obj (.cons k a t)) = .obj (.cons k a t)
      rw [cleanObject_obj_eq, hrec]

theorem cleanArr_idem (xs : JArr) (h : arraysSafeA xs = true) :
    cleanArr (cleanArr xs) = cleanArr xs := by
  cases xs with
  | nil => rfl
  | cons hd t =>
    unfold arraysSafeA at h
    rw [Bool.and_eq_true, Bool.and_eq_true] at h
    obtain ⟨⟨hsafe, hv⟩, ht⟩ := h
    rw [cleanArr_cons_eq hd t]
    by_cases hn : hd.isNullish = true
    · rw [if_pos hn]
      exact cleanArr_idem t ht
    · rw [if_neg hn]
      have hnotundef : (cleanObject hd).isUndef = false := by
        rw [Bool.or_eq_true] at hsafe
        rcases hsafe with h1 | h1
        · exact absurd h1 hn
        · rwa [Bool.not_eq_true'] at h1
      have hnotnull : cleanObject hd ≠ .null := by
        intro hc
        rw [cleanObject_eq_null hd hc] at hn
        exact hn rfl
      have hclean : ¬ ((cleanObject hd).isNullish = true) := by
        cases hc : cleanObject hd with
        | null => exact absurd hc hnotnull
        | undef => rw [hc] at hnotundef; exact nomatch hnotundef
        | _ => exact fun hcon => nomatch hcon
      rw [cleanArr_cons_eq (cleanObject hd) (cleanArr t), if_neg hclean,
        cleanObject_idem hd hv, cleanArr_idem t ht]

theorem cleanFields_idem (fs : JObj) (h : arraysSafeO fs = true) :
    cleanFields (cleanFields fs) = cleanFields fs := by
  cases fs with
  | nil => rfl
  | cons k v t =>
    unfold arraysSafeO at h
    rw [Bool.and_eq_true] at h
    obtain ⟨hv, ht⟩ := h
    rw [cleanFields_cons_eq k v t]
    by_cases hk : keepValue (cleanObject v) = true
    · rw [if_pos hk, cleanFields_cons_eq k (cleanObject v) (cleanFields t),
        cleanObject_idem v hv, if_pos hk, cleanFields_idem t ht]
    · rw [if_neg hk]
      exact cleanFields_idem t ht

end

/-- C2 (counterexample): pruning is not idempotent on all trees.  At the
concrete input `[{}]` the first pass yields `[undefined]` (the element is
kept by `filter` and only then cleaned to `undefined` by `map`) and the
second pass yields `undefined`. -/
theorem cleanObject_not_idempotent :
    cleanObject (cleanObject (.arr (.cons (.obj .nil) .nil)))
      ≠ cleanObject (.arr (.cons (.obj .nil) .nil)) := by
  intro h
  rw [show cleanObject (cleanObject (.arr (.cons (.obj .nil) .nil)))
        = .undef from rfl,
    show cleanObject (.arr (.cons (.obj .nil) .nil))
        = .arr (.cons .undef .nil) from rfl] at h
  exact nomatch h

/-- C2 (amended): the context-pruning function is idempotent on every
story-variable tree in which no array contains a non-null element whose
cleaned value is `undefined` — in particular on every tree whose arrays
hold only non-empty leaves, such as the story-variables templates. -/
theorem cleanObject_idempotent_of_arraysSafe (v : JVal)
    (h : arraysSafeV v = true) :
    cleanObject (cleanObject v) = cleanObject v :=
  cleanObject_idem v h

/-- C2 (witness): a concrete story-variable tree in the shape of the
template — names, an empty pet name, a friends array — satisfies the
side condition, and pruning it twice equals pruning it once. -/
theorem cleanObject_idempotent_witness :
    arraysSafeV
        (.obj (.cons "characters"
          (.obj (.cons "protagonistName" (.str "Bart")
            (.cons "friendsNames"
              (.arr (.cons (.str "Milhouse") (.cons (.str "Nelson") .nil)))
              (.cons "petName" (.str "") .nil))))
          (.cons "places" (.obj .nil) .nil))) = true
      ∧ cleanObject (cleanObject
          (.obj (.cons "characters"
            (.obj (.cons "protagonistName" (.str "Bart")
              (.cons "friendsNames"
                (.arr (.cons (.str "Milhouse") (.cons (.str "Nelson") .nil)))
                (.cons "petName" (.str "") .nil))))
            (.cons "places" (.obj .nil) .nil))))
        = cleanObject
          (.obj (.cons "characters"
            (.obj (.cons "protagonistName" (.str "Bart")
              (.cons "friendsNames"
                (.arr (.cons (.str "Milhouse") (.cons (.str "Nelson") .nil)))
                (.cons "petName" (.str "") .nil))))
            (.cons "places" (.obj .nil) .nil))) :=
  ⟨rfl, cleanObject_idempotent_of_arraysSafe _ rfl⟩

/-! ### Mystic task polling (src/imageGenerator.js lines 244-275)

`checkMysticTaskStatus` polls the status endpoint up to `maxAttempts`
times.  The poll sequence is modelled by `resp : Nat → MysticResponse`
(poll `i` returns `resp i`); the body returns `generated[0]` when the
status is `"COMPLETED"` and `generated?.length > 0`, raises on `"FAILED"`,
otherwise sleeps and polls again, and raises a timeout after the loop.
The model also counts the polls actually performed, so that "immediately,
without further polling" and "after exactly `maxAttempts` polls" are
statable. -/

/-- One response of the Mystic status endpoint: `response.data.data.status`
and `response.data.data.generated` (an absent `generated` is the empty
list, matching `generated?.length > 0` being falsy). -/
structure MysticResponse where
  status : String
  generated : List String

/-- The two error exits of the loop: a failed task
(`Task failed: ...`, re-raised by the catch as `Error checking task
status: ...`) and the timeout after the loop. -/
inductive MysticError where
  | taskFailed
  | timeout
  deriving DecidableEq

/-- The `for (let attempt = 0; attempt < maxAttempts; attempt++)` loop:
`fuel` is the number of iterations left, `attempt` the index of the next
poll.  Returns the outcome together with the number of polls performed. -/
def mysticPollLoop (resp : Nat → MysticResponse) :
    Nat → Nat → Except MysticError String × Nat
  | _, 0 => (.error .timeout, 0)
  | attempt, fuel + 1 =>
    let r := resp attempt
    if r.status = "COMPLETED" ∧ 0 < r.generated.length then
      (.ok (r.generated.headD ""), 1)
    else if r.status = "FAILED" then
      (.error .taskFailed, 1)
    else
      let rest := mysticPollLoop resp (attempt + 1) fuel
      (rest.1, rest.2 + 1)

/-- `checkMysticTaskStatus` of src/imageGenerator.js: run the loop from
attempt 0 with `maxAttempts` iterations available. -/
def checkMysticTaskStatus (resp : Nat → MysticResponse)
    (maxAttempts : Nat) : Except MysticError String × Nat :=
  mysticPollLoop resp 0 maxAttempts

/-- A poll response on which the loop keeps going: not a completion with a
non-empty `generated` list, and not a failure. -/
def continuesPolling (r : MysticResponse) : Prop :=
  ¬ (r.status = "COMPLETED" ∧ 0 < r.generated.length) ∧ r.status ≠ "FAILED"

/-- One unfolding of the polling loop when iterations remain. -/
theorem mysticPollLoop_succ (resp : Nat → MysticResponse) (a fuel : Nat) :
    mysticPollLoop resp a (fuel + 1)
      = if (resp a).status = "COMPLETED" ∧ 0 < (resp a).generated.length then
          (.ok ((resp a).generated.headD ""), 1)
        else if (resp a).status = "FAILED" then
          (.error .taskFailed, 1)
        else
          ((mysticPollLoop resp (a + 1) fuel).1,
            (mysticPollLoop resp (a + 1) fuel).2 + 1) := rfl

theorem mysticPollLoop_all_continue (resp : Nat → MysticResponse)
    (fuel : Nat) :
    ∀ a, (∀ i, i < fuel → continuesPolling (resp (a + i))) →
      mysticPollLoop resp a fuel = (.error .timeout, fuel) := by
  induction fuel with
  | zero => intro a _; rfl
  | succ n ih =>
    intro a h
    have h0 : continuesPolling (resp a) := by
      have := h 0 (Nat.succ_pos n)
      rwa [Nat.add_zero] at this
    show mysticPollLoop resp a (n + 1) = (.error .timeout, n + 1)
    rw [mysticPollLoop_succ, if_neg h0.1, if_neg h0.2]
    have hrest : mysticPollLoop resp (a + 1) n = (.error .timeout, n) := by
      apply ih
      intro i hi
      have e : a + 1 + i = a + (i + 1) := by omega
      rw [e]
      exact h (i + 1) (Nat.succ_lt_succ hi)
    rw [hrest]

theorem mysticPollLoop_stops_at (resp : Nat → MysticResponse)
    (k : Nat) :
    ∀ a fuel, k < fuel →
      (∀ i, i < k → continuesPolling (resp (a + i))) →
      mysticPollLoop resp a fuel
        = (if (resp (a + k)).status = "COMPLETED"
              ∧ 0 < (resp (a + k)).generated.length then
             (.ok ((resp (a + k)).generated.headD ""), k + 1)
           else if (resp (a + k)).status = "FAILED" then
             (.error .taskFailed, k + 1)
           else mysticPollLoop resp a fuel) := by
  induction k with
  | zero =>
    intro a fuel hk h
    obtain ⟨m, rfl⟩ : ∃ m, fuel = m + 1 :=
      ⟨fuel - 1, (Nat.succ_pred_eq_of_pos hk).symm⟩
    show mysticPollLoop resp a (m + 1)
        = (if (resp a).status = "COMPLETED" ∧ 0 < (resp a).generated.length then
            (.ok ((resp a).generated.headD ""), 1)
          else if (resp a).status = "FAILED" then
            (.error .taskFailed, 1)
          else mysticPollLoop resp a (m + 1))
    rw [mysticPollLoop_succ]
    by_cases h1 : (resp a).status = "COMPLETED" ∧ 0 < (resp a).generated.length
    · rw [if_pos h1, if_pos h1]
    · rw [if_neg h1, if_neg h1]
      by_cases h2 : (resp a).status = "FAILED"
      · rw [if_pos h2, if_pos h2]
      · rw [if_neg h2, if_neg h2]
  | succ n ih =>
    intro a fuel hk h
    obtain ⟨m, rfl⟩ : ∃ m, fuel = m + 1 :=
      ⟨fuel - 1, (Nat.succ_pred_eq_of_pos (Nat.lt_of_le_of_lt (Nat.zero_le _) hk)).symm⟩
    have h0 : continuesPolling (resp a) := by
      have := h 0 (Nat.succ_pos n)
      rwa [Nat.add_zero] at this
    have hshift : ∀ i, i < n → continuesPolling (resp (a + 1 + i)) := by
      intro i hi
      have e : a + 1 + i = a + (i + 1) := by omega
      rw [e]
      exact h (i + 1) (Nat.succ_lt_succ hi)
    have hrec := ih (a + 1) m (Nat.lt_of_succ_lt_succ hk) hshift
    have hidx : a + 1 + n = a + (n + 1) := by omega
    rw [hidx] at hrec
    by_cases h1 : (resp (a + (n + 1))).status = "COMPLETED"
        ∧ 0 < (resp (a + (n + 1))).generated.length
    · rw [if_pos h1]
      rw [mysticPollLoop_succ, if_neg h0.1, if_neg h0.2]
      rw [if_pos h1] at hrec
      rw [hrec]
    · rw [if_neg h1]
      rw [if_neg h1] at hrec
      by_cases h2 : (resp (a + (n + 1))).status = "FAILED"
      · rw [if_pos h2]
        rw [if_pos h2] at hrec
        rw [mysticPollLoop_succ, if_neg h0.1, if_neg h0.2, hrec]
      · rw [if_neg h2]

/-- A `"PROCESSING"` response is neither the completion exit nor the
failure exit of the loop. -/
theorem processing_continues (r : MysticResponse)
    (h : r.status = "PROCESSING") : continuesPolling r := by
  constructor
  · rintro ⟨hc, _⟩
    rw [h] at hc
    exact absurd hc (by decide)
  · intro hf
    rw [h] at hf
    exact absurd hf (by decide)

/-- C3: For every mocked Mystic status sequence: `PROCESSING` for the
first N−1 polls and `COMPLETED` with at least one generated URL on poll N
(N ≤ maxAttempts) makes `checkMysticTaskStatus` return that first URL
after exactly N polls; `FAILED` on poll k+1 makes it raise immediately,
after exactly k+1 polls; `PROCESSING` on every poll makes it raise the
timeout error after exactly `maxAttempts` polls. -/
theorem checkMysticTaskStatus_spec (resp : Nat → MysticResponse)
    (maxAttempts : Nat) :
    (∀ N url rest, 1 ≤ N → N ≤ maxAttempts →
      (∀ i, i < N - 1 → (resp i).status = "PROCESSING") →
      (resp (N - 1)).status = "COMPLETED" →
      (resp (N - 1)).generated = url :: rest →
      checkMysticTaskStatus resp maxAttempts = (.ok url, N))
    ∧ (∀ k, k < maxAttempts →
      (∀ i, i < k → (resp i).status = "PROCESSING") →
      (resp k).status = "FAILED" →
      checkMysticTaskStatus resp maxAttempts = (.error .taskFailed, k + 1))
    ∧ ((∀ i, i < maxAttempts → (resp i).status = "PROCESSING") →
      checkMysticTaskStatus resp maxAttempts
        = (.error .timeout, maxAttempts)) := by
  refine ⟨?_, ?_, ?_⟩
  · intro N url rest h1 h2 hpre hcomp hgen
    obtain ⟨k, rfl⟩ : ∃ k, N = k + 1 := ⟨N - 1, by omega⟩
    have ek : k + 1 - 1 = k := by omega
    rw [ek] at hcomp hgen
    have hk : k < maxAttempts := by omega
    have hcont : ∀ i, i < k → continuesPolling (resp (0 + i)) := by
      intro i hi
      have e : 0 + i = i := by omega
      rw [e]
      exact processing_continues _ (hpre i (by omega))
    have hmain := mysticPollLoop_stops_at resp k 0 maxAttempts hk hcont
    have e0 : 0 + k = k := by omega
    rw [e0] at hmain
    have hc : (resp k).status = "COMPLETED" ∧ 0 < (resp k).generated.length := by
      refine ⟨hcomp, ?_⟩
      rw [hgen]
      exact Nat.succ_pos _
    rw [if_pos hc] at hmain
    show mysticPollLoop resp 0 maxAttempts = (.ok url, k + 1)
    rw [hmain, hgen]
    rfl
  · intro k hk hpre hfail
    have hcont : ∀ i, i < k → continuesPolling (resp (0 + i)) := by
      intro i hi
      have e : 0 + i = i := by omega
      rw [e]
      exact processing_continues _ (hpre i hi)
    have hmain := mysticPollLoop_stops_at resp k 0 maxAttempts hk hcont
    have e0 : 0 + k = k := by omega
    rw [e0] at hmain
    have hc : ¬ ((resp k).status = "COMPLETED" ∧ 0 < (resp k).generated.length) := by
      rintro ⟨hcs, _⟩
      rw [hfail] at hcs
      exact absurd hcs (by decide)
    rw [if_neg hc, if_pos hfail] at hmain
    exact hmain
  · intro hall
    have hcont : ∀ i, i < maxAttempts → continuesPolling (resp (0 + i)) := by
      intro i hi
      have e : 0 + i = i := by omega
      rw [e]
      exact processing_continues _ (hall i hi)
    exact mysticPollLoop_all_continue resp maxAttempts 0 hcont

/-- C3 (witness): three concrete mocked endpoints — completion with the
URL on the third poll out of five, an immediate failure, and endless
processing over four attempts — behave as the claim states. -/
theorem checkMysticTaskStatus_spec_witness :
    checkMysticTaskStatus
        (fun i => if i < 2 then ⟨"PROCESSING", []⟩
                  else ⟨"COMPLETED", ["https://img.freepik.example/1.png"]⟩) 5
      = (.ok "https://img.freepik.example/1.png", 3)
    ∧ checkMysticTaskStatus (fun _ => ⟨"FAILED", []⟩) 5
      = (.error .taskFailed, 1)
    ∧ checkMysticTaskStatus (fun _ => ⟨"PROCESSING", []⟩) 4
      = (.error .timeout, 4) := by
  refine ⟨?_, ?_, ?_⟩
  · exact (checkMysticTaskStatus_spec _ 5).1 3
      "https://img.freepik.example/1.png" [] (by omega) (by omega)
      (by intro i hi
          interval_cases i <;> rfl)
      (by rfl) (by rfl)
  · exact (checkMysticTaskStatus_spec _ 5).2.1 0 (by omega)
      (by intro i hi; omega) (by rfl)
  · exact (checkMysticTaskStatus_spec _ 4).2.2 (by intro i _; rfl)

/-- C10: a `COMPLETED` response whose generated-asset list is empty is
treated neither as success nor as failure: polling continues, and if every
poll up to `maxAttempts` returns `COMPLETED` with an empty list the
function raises the timeout error (after exactly `maxAttempts` polls)
rather than returning a URL. -/
theorem completed_empty_generated_times_out (resp : Nat → MysticResponse)
    (maxAttempts : Nat)
    (h : ∀ i, i < maxAttempts →
      (resp i).status = "COMPLETED" ∧ (resp i).generated = []) :
    checkMysticTaskStatus resp maxAttempts
      = (.error .timeout, maxAttempts) := by
  have hcont : ∀ i, i < maxAttempts → continuesPolling (resp (0 + i)) := by
    intro i hi
    have e : 0 + i = i := by omega
    rw [e]
    constructor
    · rintro ⟨_, hl⟩
      rw [(h i hi).2] at hl
      exact absurd hl (by decide)
    · intro hf
      rw [(h i hi).1] at hf
      exact absurd hf (by decide)
  exact mysticPollLoop_all_continue resp maxAttempts 0 hcont

/-- C10 (witness): an endpoint that always answers `COMPLETED` with an
empty generated list times out after all three of three attempts. -/
theorem completed_empty_generated_witness :
    checkMysticTaskStatus (fun _ => ⟨"COMPLETED", []⟩) 3
      = (.error .timeout, 3) :=
  completed_empty_generated_times_out _ 3 (by intro i _; exact ⟨rfl, rfl⟩)

/-! ### Illustration prompts (image style module)

`DEFAULT_IMAGE_STYLE_PROMPT` is the ordered list of `(name, prompt)`
styles and `IMAGE_STYLE_PRESETS` the ordered `(key, promptAddon)` entries
of the preset object (the presets' display `name` and `description`
fields are not read by `getIllustrationPrompt` and are omitted). -/

def DEFAULT_IMAGE_STYLE_PROMPT : List (String × String) := [
  ("storybook",
    "Classic children\u0027s book illustration, consistent style: gentle soft lines, bright and cheerful color palette, highly expressive and endearing characters, clear and simple backgrounds focusing attention on action. Whimsical and charming feel. Inspired by modern picture books like those by Oliver Jeffers or Beatrice Alemagna. No text."),
  ("ghibli",
    "Studio Ghibli-inspired anime style: lush, detailed natural backgrounds with painterly textures, soft cinematic lighting casting gentle glows, characters with large expressive eyes conveying deep emotion, a sense of wonder and magical atmosphere. Nostalgic and heartwarming feel. No text."),
  ("clay",
    "Claymation stop-motion style: characters and objects appear handcrafted from modeling clay, slight imperfections like fingerprints adding realism, soft volumetric textures, vibrant colors, often simple but tactile backgrounds. Playful, friendly, and tangible feel. No text."),
  ("pixelart",
    "Retro 8-bit pixel art style: chunky blocky design, limited but vibrant color palette, clear outlines, nostalgic feel reminiscent of classic video games. Ideal for simple scenes and characters. Cheerful and playful aesthetic. No text."),
  ("watercolor",
    "Soft watercolor illustration style: visible light brushstrokes, beautifully blended transparent colors creating soft gradients, fluid delicate edges, sometimes with fine ink outlines for definition. Evokes warmth, nostalgia, and gentle emotions. Dreamy and ethereal quality. No text."),
  ("flat-vector",
    "Modern flat vector illustration: clean geometric shapes, bold solid lines, bright and contemporary limited color palette, minimal gradients or textures. Friendly, stylized characters. Excellent for clear communication, educational content, or graphic narratives. No text."),
  ("cutout",
    "Paper cut-out collage style: distinct layered shapes suggesting different paper or fabric textures, visible paper edges, subtle drop shadows creating depth. Handcrafted, tactile feel. Vibrant, often bold color choices. Inspired by artists like Eric Carle or Lois Ehlert. No text."),
  ("chalkboard",
    "Chalkboard drawing aesthetic: illustration appears drawn with white or colored chalk on a textured dark chalkboard background. Playful, slightly smudged lines for realism, simple charming character designs. Evokes a schoolroom or cozy cafe menu feel. Whimsical and educational vibe. No text."),
  ("colored-pencil",
    "Colored pencil drawing style: visible waxy pencil texture, soft layered colors with gentle blending, subtle cross-hatching for shading, often with fine outlines. Warm, cozy, and slightly textured feel. Ideal for realistic yet gentle animal or character illustrations. No text."),
  ("ink-and-wash",
    "Ink and wash illustration: expressive, dynamic black ink outlines defining characters and key elements, filled with loose, fluid washes of diluted ink or watercolor. High energy, slightly messy, spontaneous feel. Inspired by Quentin Blake or E.H. Shepard. No text."),
  ("gouache-poster",
    "Retro gouache illustration style: opaque, flat blocks of rich color, bold simplified shapes, minimal texture, often a mid-century modern aesthetic. Vibrant, graphic, and highly stylized. Inspired by artists like Mary Blair. No text."),
  ("vintage-storybook",
    "Vintage children\u0027s book illustration style (circa 1950s-1960s): slightly desaturated or specific retro color palette (e.g., mustard yellow, teal, muted red), charmingly simple character designs with rosy cheeks, perhaps a subtle paper grain texture. Nostalgic, sweet, and innocent feel. No text."),
  ("whimsical-doodle",
    "Whimsical doodle art style: playful and quirky characters with potentially exaggerated features or unusual proportions, loose energetic linework like pen doodles, bright optimistic colors, imaginative and unexpected compositions. Fun, lighthearted, and spontaneous energy. No text."),
  ("linocut-print",
    "Child-friendly linocut print style: bold graphic shapes defined by carved lines, visible wood grain or carving textures, limited but strong color palette often using overlays, slightly rustic and handcrafted feel. Strong visual impact, good for folk tales. No text."),
  ("mixed-media",
    "Mixed media illustration style: combines elements like drawing, painting (watercolor/gouache), real-world textures (scanned paper, fabric), and digital collage. Layered, textured, and visually rich. Creates a unique, eclectic, and often surprising look. No text."),
  ("fuzzy-felt",
    "Fuzzy felt board style: simplified shapes resembling felt pieces layered on a plain background, soft fuzzy texture on shapes, bright primary colors, minimal detail. Tactile, playful, and reminiscent of childhood toys. Ideal for very young children. No text."),
  ("photo",
    "High-resolution photo style: realistic lighting, true-to-life colors, natural shadows and depth of field. Scene looks like it was captured with a professional DSLR camera. Detailed textures and accurate proportions. No text."),
  ("digital-art",
    "Polished digital illustration style: smooth gradients, sharp details, vibrant color palettes, often with fantasy or sci-fi elements. Clean lines and modern rendering. Ideal for expressive and stylized characters. No text."),
  ("3d",
    "Realistic 3D rendering style: lifelike lighting and shading, accurate materials and reflections, strong sense of depth and form. High-poly models with cinematic detail. No text."),
  ("painting",
    "Traditional painting style: visible brush strokes, rich textured surfaces, organic blending of colors. Inspired by oil or acrylic canvas techniques. Evokes an artistic, gallery-like atmosphere. No text."),
  ("low-poly",
    "Low-poly 3D art style: simplified geometric forms, flat shading, bold color blocks, and clean triangular meshes. Stylized minimalism with retro-futuristic or game-like vibe. No text."),
  ("pixel-art",
    "Retro pixel art style: 8-bit or 16-bit game aesthetic with blocky characters and limited color palette. Crisp edges, nostalgic atmosphere, and charming simplicity. No text."),
  ("anime",
    "Anime illustration style: 2D hand-drawn characters with large expressive eyes, clean linework, cel shading, and dramatic lighting. Backgrounds can be painterly or graphic. Inspired by modern Japanese animation. No text."),
  ("cyberpunk",
    "Cyberpunk aesthetic: neon lighting, futuristic cityscapes, gritty tech environments, dark atmospheric tones. Often features rain, reflections, glowing signage, and dystopian vibes. No text."),
  ("comic",
    "Comic book style: bold outlines, dynamic poses, dramatic shading, and halftone textures. Panel-like composition and vivid color schemes. Inspired by classic superhero comics. No text."),
  ("vintage",
    "Vintage illustration style: aged paper texture, retro color palettes (muted reds, teals, ochres), mid-20th-century design aesthetics. Evokes nostalgia and classic printed media. No text."),
  ("cartoon",
    "Cartoon style: exaggerated facial expressions, simplified shapes, bold lines, and playful, vibrant colors. Ideal for humorous and child-friendly characters. No text."),
  ("vector",
    "Flat vector art style: clean geometric shapes, high contrast color blocks, minimalistic design with crisp lines and clear silhouettes. Great for infographics or modern illustrations. No text."),
  ("studio-shot",
    "Professional studio photograph style: clean background, well-lit subject, soft shadows, high contrast and crisp details. Perfect for product photography or portraiture. No text."),
  ("dark",
    "Dark aesthetic: moody lighting, high contrast shadows, deep blacks and muted colors. Evokes drama, mystery, or introspection. Could include gothic or noir elements. No text."),
  ("sketch",
    "Pencil or ink sketch style: rough lines, cross-hatching, visible hand-drawn construction. Often monochrome or lightly tinted. Spontaneous and expressive feel. No text."),
  ("mockup",
    "Clean product mockup style: minimal background, perfect lighting, photorealistic rendering of objects (often floating or centered), ideal for design presentations. No text."),
  ("2000s-pone",
    "Early 2000s mobile UI style: glossy buttons, fake 3D shadows, bright gradients, and skeuomorphic icons. Looks like an old Nokia or Sony Ericsson phone screen. Retro tech aesthetic. No text."),
  ("70s-vibe",
    "1970s-inspired illustration style: warm earthy tones (orange, brown, yellow), groovy patterns, vintage typography aesthetics, and nostalgic retro fashion. Evokes disco, hippie, and boho vibes. No text."),
  ("watercolor",
    "Soft watercolor illustration style: visible light brushstrokes, beautifully blended transparent colors creating soft gradients, fluid delicate edges, sometimes with fine ink outlines for definition. Evokes warmth, nostalgia, and gentle emotions. Dreamy and ethereal quality. No text."),
  ("art-nouveau",
    "Art Nouveau style: decorative flowing lines, floral patterns, pastel colors, and organic forms. Inspired by early 20th century artists like Alphonse Mucha. Elegant, ornate, and stylized. No text."),
  ("origami",
    "Origami paper art style: folded paper textures, visible creases and geometric shapes, minimalist color palette. Often animal or nature subjects rendered in clean, precise form. No text."),
  ("surreal",
    "Surreal art style: dreamlike and bizarre compositions, unexpected juxtapositions, often inspired by Salvador Dalí. Blurred reality, fantastical elements, strange logic. No text."),
  ("fantasy",
    "High fantasy illustration style: magical creatures, enchanted forests, glowing lights, epic settings. Inspired by classic fantasy books and RPGs. Rich detail and mythical atmosphere. No text."),
  ("traditional-japan",
    "Traditional Japanese art style: inspired by ukiyo-e woodblock prints with flat color layers, graceful linework, nature elements like sakura and waves, elegant compositions. No text.")]

def IMAGE_STYLE_PRESETS : List (String × String) := [
  ("emotionalCloseUp",
    "Close-up on a character\u0027s face showing clear emotion, simple background."),
  ("characterIntroduction",
    "A character standing in their personal space or favorite spot, showing personality."),
  ("groupInteraction",
    "Group of characters talking, playing or collaborating in a friendly setting."),
  ("parentChildMoment",
    "A child with a parent or caregiver sharing a warm moment, cozy setting."),
  ("wideEstablishingShot",
    "A wide view of a school, park, or town to establish the scene."),
  ("birdEyeTown",
    "Bird\u0027s-eye view of a friendly town with houses, parks, and people."),
  ("insideView",
    "Interior of a room or small store, with furniture and objects arranged naturally."),
  ("silentSequence",
    "A quiet moment showing only movement or feelings without speech."),
  ("dynamicAction",
    "Characters mid-action with expressive poses and movement lines."),
  ("followThrough",
    "Character reacting after a surprise or mistake, showing motion and emotion."),
  ("beforeAfter",
    "Illustration showing a change — before and after a decision, mistake, or learning."),
  ("diagramConcept",
    "Simple infographic showing how something works using arrows and labels."),
  ("splitFrameStory",
    "A panel sequence telling a mini story or showing a step-by-step process."),
  ("comparisonScene",
    "Two-part illustration comparing different choices or paths."),
  ("metaphorVisual",
    "A metaphorical visual, such as money growing like a plant or effort shown as a mountain."),
  ("magicalTouch",
    "Add glowing sparkles or floating elements to give a sense of magic."),
  ("nightScene",
    "A nighttime setting with cool tones, stars or soft lighting."),
  ("celebrationScene",
    "Characters celebrating with balloons, cake, music, or fireworks."),
  ("transitionShot",
    "Illustration showing the passage of time or travel, like sunset or journey in progress.")]

/-- `getIllustrationPrompt` of the image style module.  A missing
`description` raises (`Except.error`); an unknown (or falsy-prompt) style
falls back to `DEFAULT_IMAGE_STYLE_PROMPT[0].prompt`; an unknown preset
contributes the empty addendum (`|| ""`); the result is the template
`` `${baseStyle} ${presetAddon} Scene: ${description}` ``. -/
def getIllustrationPrompt (description : String)
    (style : String := "storybook")
    (preset : String := "emotionalCloseUp") : Except String String :=
  if description = "" then
    .error "Description is required for illustration prompt"
  else
    let baseStyle :=
      match DEFAULT_IMAGE_STYLE_PROMPT.find? (fun s => s.1 = style) with
      | some s => if s.2 = "" then (DEFAULT_IMAGE_STYLE_PROMPT.headD ("", "")).2 else s.2
      | none => (DEFAULT_IMAGE_STYLE_PROMPT.headD ("", "")).2
    let presetAddon :=
      match IMAGE_STYLE_PRESETS.find? (fun p => p.1 = preset) with
      | some p => p.2
      | none => ""
    .ok (baseStyle ++ " " ++ presetAddon ++ " Scene: " ++ description)

/-- Regrouping of the prompt template around its `"Scene: "` tail. -/
theorem append_scene (b p x : String) :
    b ++ " " ++ p ++ " Scene: " ++ x
      = (b ++ " " ++ p ++ " ") ++ ("Scene: " ++ x) := by
  calc b ++ " " ++ p ++ " Scene: " ++ x
      = b ++ " " ++ p ++ (" Scene: " ++ x) :=
        String.append_assoc (b ++ " " ++ p) " Scene: " x
    _ = b ++ " " ++ p ++ ((" " ++ "Scene: ") ++ x) := rfl
    _ = b ++ " " ++ p ++ (" " ++ ("Scene: " ++ x)) := by
        rw [String.append_assoc " " "Scene: " x]
    _ = (b ++ " " ++ p ++ " ") ++ ("Scene: " ++ x) :=
        (String.append_assoc (b ++ " " ++ p) " " ("Scene: " ++ x)).symm

/-- C8: for every non-empty description, an unrecognized style name makes
`getIllustrationPrompt` use the first defined style's prompt text and an
unrecognized preset name an empty preset addendum; and whatever the style
and preset, the returned string ends with `"Scene: "` followed by the
description. -/
theorem getIllustrationPrompt_spec (x style preset : String) (hx : x ≠ "") :
    (DEFAULT_IMAGE_STYLE_PROMPT.find? (fun s => s.1 = style) = none →
      IMAGE_STYLE_PRESETS.find? (fun p => p.1 = preset) = none →
      getIllustrationPrompt x style preset
        = .ok ((DEFAULT_IMAGE_STYLE_PROMPT.headD ("", "")).2
            ++ " " ++ "" ++ " Scene: " ++ x))
    ∧ (∃ pre, getIllustrationPrompt x style preset
        = .ok (pre ++ ("Scene: " ++ x))) := by
  constructor
  · intro hs hp
    rw [getIllustrationPrompt, if_neg hx]
    rw [hs, hp]
  · rw [getIllustrationPrompt, if_neg hx]
    exact ⟨(match DEFAULT_IMAGE_STYLE_PROMPT.find? (fun s => s.1 = style) with
      | some s => if s.2 = "" then (DEFAULT_IMAGE_STYLE_PROMPT.headD ("", "")).2 else s.2
      | none => (DEFAULT_IMAGE_STYLE_PROMPT.headD ("", "")).2)
        ++ " "
        ++ (match IMAGE_STYLE_PRESETS.find? (fun p => p.1 = preset) with
          | some p => p.2
          | none => "")
        ++ " ",
      congrArg Except.ok (append_scene _ _ x)⟩

/-- C8 (witness): `getIllustrationPrompt({style: "unknown", preset:
"unknown", description: "x"})` uses the first style's prompt, an empty
addendum, and ends with `"Scene: x"`. -/
theorem getIllustrationPrompt_spec_witness :
    getIllustrationPrompt "x" "unknown" "unknown"
      = .ok ((DEFAULT_IMAGE_STYLE_PROMPT.headD ("", "")).2
          ++ " " ++ "" ++ " Scene: " ++ "x") :=
  (getIllustrationPrompt_spec "x" "unknown" "unknown" (by decide)).1 rfl rfl

/-! ### Book state initialisation (src/cli/utils/bookState.js)

The static lesson configuration (`BOOK_CONTENT` of `config/chapters.js`)
is a list of lesson categories, each with an id, title, order and topics;
a topic has a key, title, example scenario and summary.  The Lean field
`exampleText` stands for the JavaScript field `example` (a Lean keyword).
`initializeChaptersFromLessons` reads this configuration; it is passed
here as an explicit argument in place of the imported global. -/

structure Topic where
  key : String
  title : String
  exampleText : String
  summary : String
  deriving DecidableEq

structure Lesson where
  id : String
  title : String
  order : Int
  topics : List Topic
  deriving DecidableEq

/-- The per-chapter `image` sub-record (`status`, `prompt`, `url`). -/
structure ImageInfo where
  status : String
  prompt : Option String
  url : Option String
  deriving DecidableEq

/-- The `lessonContext` sub-record stored on topic chapters
(`{ example, summary }`). -/
structure LessonContext where
  exampleText : String
  summary : String
  deriving DecidableEq

/-- The `generationConfig` bookkeeping record written on a chapter by
`generateChapterContent` after a successful generation: the reviewed
initial prompt, the personalization prompt, the chat model, the sampling
temperature (an IEEE double in the source, embedded as a rational — it is
only stored, never computed with) and the ISO timestamp. -/
structure GenerationConfig where
  initialPrompt : String
  personalizationPrompt : String
  model : String
  temperature : Rat
  timestamp : String
  deriving DecidableEq

/-- A chapter object of `book-state.json`.  `lessonContext` is `none` on
the introduction and conclusion chapters, which do not carry the field;
`generationConfig` is absent until a generation succeeds. -/
structure Chapter where
  id : String
  topic : String
  status : String
  lessonContext : Option LessonContext := none
  text : Option String := none
  image : ImageInfo := ⟨"not_generated", none, none⟩
  generationConfig : Option GenerationConfig := none
  deriving DecidableEq

/-- A fresh chapter skeleton with the given id and topic, as pushed by
`initializeChaptersFromLessons`: status `"not_generated"`, no text, and a
`not_generated` image record. -/
def freshChapter (id topic : String) (ctx : Option LessonContext) : Chapter :=
  { id := id, topic := topic, status := "not_generated",
    lessonContext := ctx, text := none,
    image := ⟨"not_generated", none, none⟩ }

/-- `initializeChaptersFromLessons` of src/cli/utils/bookState.js lines
78-131: an `introduction` chapter, then one chapter per (lesson, topic)
pair in configuration order with id `` `${lesson.id}_${topic.key}` ``,
then a `conclusion` chapter. -/
def initializeChaptersFromLessons (bookContent : List Lesson) : List Chapter :=
  (freshChapter "introduction" "Introduction" none ::
    bookContent.flatMap (fun lesson =>
      lesson.topics.map (fun topic =>
        freshChapter (lesson.id ++ "_" ++ topic.key) topic.title
          (some ⟨topic.exampleText, topic.summary⟩))))
  ++ [freshChapter "conclusion" "Conclusion" none]

/-- The default `storyVariables` tree of `initializeBookState` (empty
strings and empty arrays as in the source). -/
def defaultStoryVariables : JVal :=
  .obj (.cons "characters"
    (.obj (.cons "protagonistName" (.str "")
      (.cons "protagonistAge" (.str "")
      (.cons "protagonistGender" (.str "")
      (.cons "friendsNames" (.arr .nil)
      (.cons "siblingsNamesAges" (.arr .nil)
      (.cons "petName" (.str "")
      (.cons "petType" (.str "") .nil))))))))
  (.cons "places"
    (.obj (.cons "cityName" (.str "")
      (.cons "schoolName" (.str "") .nil)))
  (.cons "familyAndEmotions"
    (.obj (.cons "parentsNames" (.arr .nil) .nil)) .nil)))

/-- The book state produced by `initializeBookState`.  `createdAt` (the
`new Date().toISOString()` call) is passed in as `now`; `openAIConfig`
starts `null`. -/
structure BookState where
  title : String
  createdAt : String
  openAIConfig : Option String
  storyVariables : JVal
  chapters : List Chapter
  currentContext : String
  deriving DecidableEq

/-- `initializeBookState` of src/cli/utils/bookState.js lines 259-285. -/
def initializeBookState (title now : String)
    (bookContent : List Lesson) : BookState :=
  { title := title, createdAt := now, openAIConfig := none,
    storyVariables := defaultStoryVariables,
    chapters := initializeChaptersFromLessons bookContent,
    currentContext := "" }

/-- C5: given a fixed static lesson configuration, book-state
initialization is deterministic — any two calls (any titles, any clock
values) yield identical chapter-id sequences — and the id sequence is
exactly `"introduction"`, then `"<lessonId>_<topicKey>"` for each
(lesson, topic) pair in configuration order, then `"conclusion"`; in
particular the first chapter id is `"introduction"` and the last is
`"conclusion"`. -/
theorem initializeBookState_chapters_spec (cfg : List Lesson)
    (t1 t2 now1 now2 : String) :
    ((initializeBookState t1 now1 cfg).chapters.map Chapter.id
      = (initializeBookState t2 now2 cfg).chapters.map Chapter.id)
    ∧ ((initializeBookState t1 now1 cfg).chapters.map Chapter.id
      = "introduction"
        :: cfg.flatMap (fun l => l.topics.map (fun t => l.id ++ "_" ++ t.key))
        ++ ["conclusion"])
    ∧ ((initializeBookState t1 now1 cfg).chapters.head?.map Chapter.id
      = some "introduction")
    ∧ ((initializeBookState t1 now1 cfg).chapters.getLast?.map Chapter.id
      = some "conclusion") := by
  refine ⟨rfl, ?_, rfl, ?_⟩
  · show (initializeChaptersFromLessons cfg).map Chapter.id = _
    rw [initializeChaptersFromLessons]
    rw [List.map_append, List.map_cons, List.map_flatMap]
    have hinner : ∀ l ∈ cfg,
        List.map Chapter.id (List.map (fun topic =>
          freshChapter (l.id ++ "_" ++ topic.key) topic.title
            (some ⟨topic.exampleText, topic.summary⟩)) l.topics)
        = l.topics.map (fun t => l.id ++ "_" ++ t.key) := by
      intro l _
      rw [List.map_map]
      rfl
    rw [List.flatMap_congr hinner]
    rfl
  · show ((initializeChaptersFromLessons cfg).getLast?).map Chapter.id
      = some "conclusion"
    rw [initializeChaptersFromLessons]
    rw [List.getLast?_concat]
    rfl

/-! ### Chapter acceptance and `content.md`
(src/cli/commands/configureBook.js lines 547-559,
src/cli/commands/manageBook.js lines 285-334)

`content.md` is modelled as the string the CLI appends to.  Two distinct
CLI actions set a chapter's status to `"accepted"`: the `accept` branch of
the content review inside `generateChapterContent`, which appends one
Markdown section, and the `mark_accepted` menu action of `handleChapter`,
which saves the state without touching `content.md`. -/

/-- The section appended per acceptance:
`` `\n\n## ${chapter.topic}\n\n${personalizedContent}\n` ``. -/
def chapterSection (topic text : String) : String :=
  "\n\n## " ++ topic ++ "\n\n" ++ text ++ "\n"

/-- The `accept` branch of the review switch in `generateChapterContent`:
set `chapter.status = "accepted"` and `fs.appendFile(contentPath, ...)`
one section. -/
def acceptChapter (contentMd : String) (ch : Chapter)
    (personalizedContent : String) : String × Chapter :=
  (contentMd ++ chapterSection ch.topic personalizedContent,
    { ch with status := "accepted" })

/-- The `mark_accepted` action of `handleChapter`: set
`chapter.status = "accepted"` and save `book-state.json`; no write to
`content.md` occurs in this branch. -/
def markAccepted (contentMd : String) (ch : Chapter) : String × Chapter :=
  (contentMd, { ch with status := "accepted" })

/-- C1 (counterexample): the `mark_accepted` CLI action sets the status to
`"accepted"` yet leaves `content.md` byte-for-byte unchanged — no section
(not even an empty-text one, the shortest possible) is appended — so not
every acceptance appends exactly one section. -/
theorem markAccepted_appends_nothing :
    (markAccepted "existing"
      (freshChapter "introduction" "Introduction" none)).2.status = "accepted"
    ∧ (markAccepted "existing"
      (freshChapter "introduction" "Introduction" none)).1 = "existing"
    ∧ ("existing" : String) ≠ "existing" ++ chapterSection "Introduction" "" :=
  ⟨rfl, rfl, by decide⟩

/-- C1 (amended): acceptance through the content-review `accept` action
appends exactly one `"\n\n## <topic>\n\n<text>\n"` section to `content.md`
and sets the chapter's status to `"accepted"`; accepting the same chapter
twice appends a second, duplicate section; the `mark_accepted` menu
action, by contrast, sets the status to `"accepted"` without appending
anything. -/
theorem acceptChapter_spec (content text : String) (ch : Chapter) :
    ((acceptChapter content ch text).2.status = "accepted")
    ∧ ((acceptChapter content ch text).1
        = content ++ chapterSection ch.topic text)
    ∧ ((acceptChapter (acceptChapter content ch text).1
          (acceptChapter content ch text).2 text).1
        = content ++ chapterSection ch.topic text
            ++ chapterSection ch.topic text)
    ∧ ((markAccepted content ch).1 = content)
    ∧ ((markAccepted content ch).2.status = "accepted") :=
  ⟨rfl, rfl, rfl, rfl, rfl⟩

/-! ### The chapter status state machine (C4)

One atomic persisted transition per constructor: each corresponds to a
`chapter.status = ...` assignment followed by `saveBookState` in the CLI
flow.  `generate` covers the successful-generation write inside
`generateChapterContent` (any prior status; the chapter menu offers
Generate/Regenerate unconditionally).  `accept` is the review `accept`
branch, reachable only right after that write set the status to
`"generated"`.  `review_to_wip` covers the `regenerate`/`modify`/`wip`
review choices.  `mark_wip` and `mark_accepted` are the menu actions of
`handleChapter`, whose choices are `disabled` by the menu exactly when
the status is `"not_generated"`. -/

inductive ChapterStep : String → String → Prop where
  | generate (s : String) : ChapterStep s "generated"
  | accept : ChapterStep "generated" "accepted"
  | review_to_wip : ChapterStep "generated" "wip"
  | mark_wip (s : String) :
      s ≠ "not_generated" → ChapterStep s "wip"
  | mark_accepted (s : String) :
      s ≠ "not_generated" → ChapterStep s "accepted"

/-- C4: in every status transition reachable through the CLI flow, a
chapter becomes `"accepted"` only from a state that is not
`"not_generated"`; in particular no step goes directly from
`"not_generated"` to `"accepted"`. -/
theorem accepted_only_from_generated_or_wip (s s' : String)
    (hstep : ChapterStep s s') (hacc : s' = "accepted") :
    s ≠ "not_generated" := by
  cases hstep with
  | generate t => exact absurd hacc (by decide)
  | accept => decide
  | review_to_wip => exact absurd hacc (by decide)
  | mark_wip t h => exact absurd hacc (by decide)
  | mark_accepted t h => exact h

/-- C4 (witness): the review `accept` transition is a concrete step into
`"accepted"`, and its source state `"generated"` is indeed not
`"not_generated"`. -/
theorem accepted_only_from_generated_or_wip_witness :
    ChapterStep "generated" "accepted"
    ∧ ("generated" : String) ≠ "not_generated" :=
  ⟨.accept,
    accepted_only_from_generated_or_wip "generated" "accepted" .accept rfl⟩

/-! ### Next chapter selection (src/cli/commands/manageBook.js lines 104-106) -/

/-- `getNextChapter`:
`chapters.find((chapter) => chapter.status !== "accepted")`. -/
def getNextChapter (chapters : List Chapter) : Option Chapter :=
  chapters.find? (fun chapter => chapter.status ≠ "accepted")

/-- C9: the "next chapter needing attention" selection never returns an
accepted chapter; when it returns one, it is the first chapter in book
order whose status is not `"accepted"` (every chapter before it is
accepted); and it returns nothing exactly when every chapter is
accepted. -/
theorem getNextChapter_spec (chs : List Chapter) :
    (∀ c, getNextChapter chs = some c → c.status ≠ "accepted")
    ∧ (∀ c, getNextChapter chs = some c →
        ∃ l1 l2, chs = l1 ++ c :: l2 ∧ ∀ d ∈ l1, d.status = "accepted")
    ∧ (getNextChapter chs = none ↔ ∀ c ∈ chs, c.status = "accepted") := by
  refine ⟨?_, ?_, ?_⟩
  · intro c hc
    have := List.find?_some hc
    exact of_decide_eq_true this
  · intro c
    induction chs with
    | nil => intro hc; exact absurd hc (by simp [getNextChapter])
    | cons hd t ih =>
      intro hc
      rw [getNextChapter, List.find?_cons] at hc
      by_cases hhd : hd.status = "accepted"
      · have hfalse : (decide (hd.status ≠ "accepted")) = false := by
          simp [hhd]
        rw [hfalse] at hc
        obtain ⟨l1, l2, heq, hall⟩ := ih hc
        refine ⟨hd :: l1, l2, by rw [heq]; rfl, ?_⟩
        intro d hd2
        rcases List.mem_cons.mp hd2 with h | h
        · rw [h]; exact hhd
        · exact hall d h
      · have htrue : (decide (hd.status ≠ "accepted")) = true := by
          simp [hhd]
        rw [htrue] at hc
        refine ⟨[], t, ?_, by intro d hd2; exact absurd hd2 (List.not_mem_nil d)⟩
        rw [List.nil_append]
        exact congrArg (· :: t) (Option.some_injective _ hc)
  · rw [getNextChapter, List.find?_eq_none]
    constructor
    · intro h c hc
      have := h c hc
      simpa using this
    · intro h c hc
      simp [h c hc]

/-- C9 (witness): on a concrete book whose first two chapters are
accepted, the selection returns the third (the first unaccepted one), and
on a fully accepted book it returns nothing. -/
theorem getNextChapter_spec_witness :
    getNextChapter
        [{ id := "introduction", topic := "Introduction", status := "accepted" },
         { id := "l1_t1", topic := "T1", status := "accepted" },
         { id := "l1_t2", topic := "T2", status := "wip" }]
      = some { id := "l1_t2", topic := "T2", status := "wip" }
    ∧ ({ id := "l1_t2", topic := "T2", status := "wip" } : Chapter).status
        ≠ "accepted"
    ∧ getNextChapter
        [{ id := "introduction", topic := "Introduction", status := "accepted" }]
      = none := by
  refine ⟨by rfl, ?_, ?_⟩
  · exact (getNextChapter_spec
      [{ id := "introduction", topic := "Introduction", status := "accepted" },
       { id := "l1_t1", topic := "T1", status := "accepted" },
       { id := "l1_t2", topic := "T2", status := "wip" }]).1
      { id := "l1_t2", topic := "T2", status := "wip" } (by rfl)
  · exact (getNextChapter_spec
      [{ id := "introduction", topic := "Introduction",
         status := "accepted" }]).2.2.mpr
      (by intro c hc
          rw [List.mem_singleton] at hc
          rw [hc])

/-! ### Generation failure handling
(src/generatorChapter.js lines 140-157,
src/cli/commands/configureBook.js lines 461-581)

`generateChapter` makes a single chat-completion attempt: on success it
returns the trimmed message content, on failure it logs and re-throws the
error unchanged (no retry, no backoff).  Inside `generateChapterContent`,
the chapter is mutated (`chapter.text`, `chapter.status = "generated"`,
`chapter.generationConfig`) and `saveBookState` is called only *after*
both `generateChapter` calls have returned; when either call throws, the
surrounding try/catch returns `false` with the chapter untouched since
the start of the attempt and nothing persisted by it.  `generationAttempt`
embeds one pass of that loop body up to the post-generation save, with
the two call outcomes passed in as `Except` values and the states written
by `saveBookState` collected in `saves`. -/

/-- `generateChapter` of src/generatorChapter.js: the outcome of the
single `openai.chat.completions.create` attempt is passed in; success
returns `response.choices[0].message.content.trim()`, failure re-throws
the error unchanged. -/
def generateChapter (apiOutcome : Except String String) :
    Except String String :=
  match apiOutcome with
  | .ok content => .ok content.trim
  | .error e => .error e

/-- Outcome of one generation attempt: whether the flow reaches the
content review, the chapter as left by the attempt, and the chapter
states persisted to `book-state.json` by it. -/
structure GenAttempt where
  reachedReview : Bool
  chapter : Chapter
  saves : List Chapter
  deriving DecidableEq

/-- One pass of the `generateChapterContent` loop body up to the
post-generation `saveBookState`: the first `generateChapter` call
(initial content), the second (personalization, whose prompt is built
from the initial content by `personalizePrompt`), then the chapter update
and save. -/
def generationAttempt (ch : Chapter) (prompt : String)
    (personalizePrompt : String → String) (chatModel : String)
    (temperature : Rat) (now : String)
    (gen1 gen2 : Except String String) : GenAttempt :=
  match generateChapter gen1 with
  | .error _ => ⟨false, ch, []⟩
  | .ok initialContent =>
    match generateChapter gen2 with
    | .error _ => ⟨false, ch, []⟩
    | .ok personalizedContent =>
      let ch' := { ch with
        text := some personalizedContent,
        status := "generated",
        generationConfig := some
          ⟨prompt, personalizePrompt initialContent, chatModel,
            temperature, now⟩ }
      ⟨true, ch', [ch']⟩

/-- C7: when a generation call fails — the first chat-completion request,
or the personalization one — the chapter is unchanged by the attempt (in
particular its status is what it was before), nothing is persisted to
`book-state.json` by the failed attempt, and the API error itself is
re-thrown unchanged by `generateChapter`. -/
theorem generation_failure_preserves_state (ch : Chapter) (prompt : String)
    (personalizePrompt : String → String) (chatModel : String)
    (temperature : Rat) (now : String) (gen1 gen2 : Except String String)
    (h : (∃ e, gen1 = .error e) ∨ (∃ c e, gen1 = .ok c ∧ gen2 = .error e)) :
    (generationAttempt ch prompt personalizePrompt chatModel temperature now
        gen1 gen2).chapter = ch
    ∧ (generationAttempt ch prompt personalizePrompt chatModel temperature now
        gen1 gen2).chapter.status = ch.status
    ∧ (generationAttempt ch prompt personalizePrompt chatModel temperature now
        gen1 gen2).saves = []
    ∧ (∀ e, generateChapter (.error e) = .error e) := by
  rcases h with ⟨e, rfl⟩ | ⟨c, e, rfl, rfl⟩
  · exact ⟨rfl, rfl, rfl, fun _ => rfl⟩
  · exact ⟨rfl, rfl, rfl, fun _ => rfl⟩

/-- C7 (witness): a concrete failed first call (`.error "rate limit"`) on
a work-in-progress introduction chapter leaves the chapter and the
persisted state untouched. -/
theorem generation_failure_preserves_state_witness :
    (generationAttempt
        { id := "introduction", topic := "Introduction", status := "wip" }
        "prompt" (fun s => s) "gpt-4" (7 / 10) "2025-01-01"
        (.error "rate limit") (.ok "text")).chapter
      = { id := "introduction", topic := "Introduction", status := "wip" }
    ∧ (generationAttempt
        { id := "introduction", topic := "Introduction", status := "wip" }
        "prompt" (fun s => s) "gpt-4" (7 / 10) "2025-01-01"
        (.error "rate limit") (.ok "text")).chapter.status = "wip"
    ∧ (generationAttempt
        { id := "introduction", topic := "Introduction", status := "wip" }
        "prompt" (fun s => s) "gpt-4" (7 / 10) "2025-01-01"
        (.error "rate limit") (.ok "text")).saves = []
    ∧ generateChapter (.error "rate limit") = .error "rate limit" := by
  have h := generation_failure_preserves_state
    { id := "introduction", topic := "Introduction", status := "wip" }
    "prompt" (fun s => s) "gpt-4" (7 / 10) "2025-01-01"
    (.error "rate limit") (.ok "text")
    (Or.inl ⟨"rate limit", rfl⟩)
  exact ⟨h.1, h.2.1, h.2.2.1, h.2.2.2 "rate limit"⟩
